import Mathlib

/-!
Shallow embedding of `pygmt/src/project.py` (the `project` wrapper around the
GMT `project` module).

The embedding follows the body of `project` (source lines 216-273) statement by
statement.  Helpers that live in `pygmt.helpers` / `pygmt.clib` (not part of
this repository fragment) are modelled from the specification and marked as
such in their doc comments.  Python exceptions are modelled by an error type
and `Except`; the external `call_module` invocations are recorded in a trace.
-/

namespace PyGMT

/-- Python exceptions that the wrapper can raise.  `invalidInputOutfile` stands
for `GMTInvalidInput("Please pass in a str to ...")` raised at source line 230,
`invalidInputUnrecognized` for `GMTInvalidInput("Unrecognized data type ...")`
raised at line 233; `valueError` for `list.index` on an absent element
(lines 258-260); `attributeError` for reading `.columns` of a non-DataFrame
(line 261); `indexError` for an out-of-range list subscript (lines 262-263);
`typeError` for concatenating a string with `None` (lines 238, 242). -/
inductive PyError where
  | invalidInputOutfile
  | invalidInputUnrecognized
  | valueError
  | attributeError
  | indexError
  | typeError
deriving DecidableEq, Repr

/-- A `pandas.DataFrame`, reduced to what the wrapper inspects and produces:
its ordered list of column names (`points.columns.to_list()` on input,
the `names=` argument of `pd.read_csv` on output). -/
structure DataFrame where
  columns : List String
deriving DecidableEq, Repr

/-- Modelled from the spec: `data_kind` (from `pygmt.helpers`, not under
`src/`) classifies the `points` argument as an in-memory table ("matrix"),
a file path ("file"), or something unrecognized.  `matrix` carries the frame,
`file` the path string, `other` covers everything else (e.g. `None`). -/
inductive Points where
  | matrix (df : DataFrame)
  | file (path : String)
  | other
deriving DecidableEq, Repr

/-- The `center` argument: either a sequence of elements (list/tuple) or a
plain Python string. -/
inductive Center where
  | seq (items : List String)
  | str (s : String)
deriving DecidableEq, Repr

/-- Python iteration over `center` as used by the generator expression
`f"{item}" for item in center` at line 218: iterating a list yields its
elements, iterating a string yields its characters (each formatted as a
one-character string). -/
def Center.pyIter : Center → List String
  | .seq items => items
  | .str s => s.data.map Char.toString

/-- Source line 218: `"/".join(f"{item}" for item in center)`. -/
def serializeCenter (c : Center) : String :=
  String.intercalate "/" c.pyIter

/-- The keyword-argument bag after the `use_alias` / `kwargs_to_strings`
decorators have run: `G` (generate) and `F` (flags) are inspected by the body,
every other already-stringified option is carried in `others` as a
(single-letter key, value) pair. -/
structure Kwargs where
  G : Option String := none
  F : Option String := none
  others : List (String × String) := []
deriving DecidableEq, Repr

/-- The option pairs handed to `build_arg_string` after line 216-218 stored
the serialized center under key "C": `kwargs["C"] = ...`. -/
def Kwargs.toPairs (cval : String) (kw : Kwargs) : List (String × String) :=
  ("C", cval) ::
    ((match kw.G with | some g => [("G", g)] | none => []) ++
     (match kw.F with | some f => [("F", f)] | none => []) ++
     kw.others)

/-- Modelled from the spec: a single flag token of the argument builder,
`-<key><value>` (boolean flags carry an empty value). -/
def argToken (p : String × String) : String :=
  "-" ++ p.1 ++ p.2

/-- Modelled from the spec: `build_arg_string` (from `pygmt.helpers`, not
under `src/`) turns the option bag into a space-separated string of flag
tokens. -/
def build_arg_string (pairs : List (String × String)) : String :=
  String.intercalate " " (pairs.map argToken)

/-- Python `list.index(x)`: first index of `x`, `ValueError` when absent
(source lines 258-260). -/
def pyIndex (l : List String) (x : String) : Except PyError Nat :=
  if x ∈ l then .ok (List.indexOf x l) else .error .valueError

/-- Python list subscript `l[i]`: `IndexError` when out of range
(source lines 262-263). -/
def pyGet (l : List String) (i : Nat) : Except PyError String :=
  if h : i < l.length then .ok (l.get ⟨i, h⟩) else .error .indexError

/-- Source line 261: `points.columns.to_list()`.  Only a DataFrame has a
`.columns` attribute; a string (file path) or any other object raises
`AttributeError`. -/
def getColumns : Points → Except PyError (List String)
  | .matrix df => .ok df.columns
  | _ => .error .attributeError

/-- Source lines 252-255: `list(kwargs["F"])` when flags were given, else
`list("xyzpqrs")`: the spec as a list of one-character strings. -/
def resolveSpec (kw : Kwargs) : List String :=
  match kw.F with
  | some f => f.data.map Char.toString
  | none => "xyzpqrs".data.map Char.toString

/-- Source lines 266-267:
`for col in reversed(input_column_names[2:]): column_names.insert(i_z, col)`. -/
def insertAllAt (i : Nat) (cols : List String) (l : List String) : List String :=
  cols.reverse.foldl (fun acc col => List.insertIdx i col acc) l

/-- Source lines 247-267: compute the column names of the parsed result.
In generate mode (`"G" in kwargs`) the names are `list("rsp")`; otherwise the
resolved spec has its "x"/"y" entries replaced by the first two input column
names, its "z" entry removed, and the remaining input columns inserted at the
old "z" position. -/
def shapeColumns (kw : Kwargs) (points : Points) : Except PyError (List String) :=
  match kw.G with
  | some _ => .ok ["r", "s", "p"]
  | none =>
    match pyIndex (resolveSpec kw) "x" with
    | .error e => .error e
    | .ok i_x =>
      match pyIndex (resolveSpec kw) "y" with
      | .error e => .error e
      | .ok i_y =>
        match pyIndex (resolveSpec kw) "z" with
        | .error e => .error e
        | .ok i_z =>
          match getColumns points with
          | .error e => .error e
          | .ok input_column_names =>
            match pyGet input_column_names 0 with
            | .error e => .error e
            | .ok c0 =>
              match pyGet input_column_names 1 with
              | .error e => .error e
              | .ok c1 =>
                .ok (insertAllAt i_z (input_column_names.drop 2)
                  ((((resolveSpec kw).set i_x c0).set i_y c1).eraseIdx i_z))

/-- Environment-supplied fresh names: the scoped temporary file path created
by `GMTTempFile` (line 220) and the virtual-file name produced by
`lib.virtualfile_from_matrix` (line 227). -/
structure Env where
  tmpname : String
  vfile : String
deriving DecidableEq, Repr

instance {ε α : Type} [DecidableEq ε] [DecidableEq α] : DecidableEq (Except ε α) := fun a b =>
  match a, b with
  | .ok x, .ok y => decidable_of_iff (x = y) (by simp)
  | .error x, .error y => decidable_of_iff (x = y) (by simp)
  | .ok _, .error _ => .isFalse (by simp)
  | .error _, .ok _ => .isFalse (by simp)

/-- Outcome of one call of `project`: the argument strings passed to
`lib.call_module(module="project", args=...)`, in order, and either the raised
exception or the returned value (`some` DataFrame, or `none` when the output
went to a caller-supplied file). -/
structure RunResult where
  calls : List String
  result : Except PyError (Option DataFrame)
deriving DecidableEq, Repr

/-- Source lines 223-243, the `with Session() as lib:` block: choose the input
staging path and invoke the module once, or raise before invoking.  `outfile`
here is the rebound local of line 221-222 (still an `Option` in the embedding
because the guard at line 229 tests it against `None`).  Returns the calls
made and the exception, if one was raised. -/
def sessionPhase (env : Env) (points : Points) (pairs : List (String × String))
    (outfile : Option String) (kw : Kwargs) : List String × Option PyError :=
  match kw.G with
  | none =>
    match points with
    | .matrix _ =>
      match outfile with
      | none => ([], some .typeError)
      | some o =>
        ([env.vfile ++ " " ++ build_arg_string pairs ++ " " ++ ("->" ++ o)], none)
    | .file path =>
      match outfile with
      | none => ([], some .invalidInputOutfile)
      | some o =>
        ([path ++ " " ++ build_arg_string pairs ++ " " ++ ("->" ++ o)], none)
    | .other => ([], some .invalidInputUnrecognized)
  | some _ =>
    match outfile with
    | none => ([], some .typeError)
    | some o => ([build_arg_string pairs ++ " " ++ ("->" ++ o)], none)

/-- Shallow embedding of `project(points, center, outfile=None, **kwargs)`
(source lines 216-273).  Line 218 stores the serialized center; lines 221-222
rebind `outfile` to the temporary file name when it is `None`; the session
phase invokes the module (or raises); lines 245-271 parse the temporary file
into a DataFrame when `outfile == tmpfile.name`, else return `None`. -/
def project (env : Env) (points : Points) (center : Center)
    (outfile : Option String) (kw : Kwargs) : RunResult :=
  let pairs := Kwargs.toPairs (serializeCenter center) kw
  let outfile1 : Option String :=
    match outfile with
    | none => some env.tmpname
    | some f => some f
  match sessionPhase env points pairs outfile1 kw with
  | (calls, some e) => ⟨calls, .error e⟩
  | (calls, none) =>
    if outfile1 = some env.tmpname then
      match shapeColumns kw points with
      | .ok names => ⟨calls, .ok (some ⟨names⟩)⟩
      | .error e => ⟨calls, .error e⟩
    else
      ⟨calls, .ok none⟩

/-- Abbreviation for stating results: the resolved spec after lines 262-263
replaced its (first) "x" and "y" entries by the two leading input column
names. -/
def substitutedSpec (kw : Kwargs) (c0 c1 : String) : List String :=
  ((resolveSpec kw).set (List.indexOf "x" (resolveSpec kw)) c0).set
    (List.indexOf "y" (resolveSpec kw)) c1

/-! Helper lemmas about the list plumbing. -/

theorem insertIdx_append_cons {α : Type} (l₁ l₂ : List α) (a : α) :
    List.insertIdx l₁.length a (l₁ ++ l₂) = l₁ ++ a :: l₂ := by
  induction l₁ with
  | nil => simp
  | cons h t ih => simpa [List.insertIdx_succ_cons] using ih

theorem insertAllAt_nil (i : Nat) (l : List String) : insertAllAt i [] l = l := rfl

theorem insertAllAt_cons (i : Nat) (c : String) (cs l : List String) :
    insertAllAt i (c :: cs) l = List.insertIdx i c (insertAllAt i cs l) := by
  unfold insertAllAt
  rw [List.foldl_reverse, List.foldl_reverse]
  rfl

theorem insertAllAt_eq (i : Nat) (cols l : List String) (h : i ≤ l.length) :
    insertAllAt i cols l = l.take i ++ cols ++ l.drop i := by
  induction cols with
  | nil => simp [insertAllAt_nil]
  | cons c cs ih =>
    rw [insertAllAt_cons, ih]
    have hlen : (l.take i).length = i := by
      rw [List.length_take]; omega
    calc List.insertIdx i c (l.take i ++ cs ++ l.drop i)
        = List.insertIdx (l.take i).length c (l.take i ++ (cs ++ l.drop i)) := by
          rw [hlen, List.append_assoc]
      _ = l.take i ++ c :: (cs ++ l.drop i) := insertIdx_append_cons ..
      _ = l.take i ++ (c :: cs) ++ l.drop i := by simp

theorem take_eraseIdx_self (l : List String) (i : Nat) :
    (l.eraseIdx i).take i = l.take i := by
  rw [List.eraseIdx_eq_take_drop_succ]
  rcases le_or_lt i l.length with h | h
  · have hlen : (l.take i).length = i := by rw [List.length_take]; omega
    rw [List.take_append_of_le_length (by omega), List.take_take]
    simp
  · have h1 : l.take i = l := List.take_of_length_le (by omega)
    have h2 : l.drop (i + 1) = [] := List.drop_eq_nil_of_le (by omega)
    rw [h1, h2, List.append_nil, h1]

theorem drop_eraseIdx_self (l : List String) (i : Nat) (h : i < l.length) :
    (l.eraseIdx i).drop i = l.drop (i + 1) := by
  rw [List.eraseIdx_eq_take_drop_succ]
  have hlen : (l.take i).length = i := by rw [List.length_take]; omega
  rw [List.drop_append_of_le_length (by omega)]
  have h3 : List.drop i (l.take i) = [] := List.drop_eq_nil_of_le (by omega)
  rw [h3, List.nil_append]

/-! Characterizations of the stages of `project`. -/

theorem pyIndex_error_eq (l : List String) (x : String) (e : PyError)
    (h : pyIndex l x = .error e) : e = .valueError := by
  unfold pyIndex at h
  split at h <;> simp_all

theorem pyGet_error_eq (l : List String) (i : Nat) (e : PyError)
    (h : pyGet l i = .error e) : e = .indexError := by
  unfold pyGet at h
  split at h <;> simp_all

theorem getColumns_error_eq (p : Points) (e : PyError)
    (h : getColumns p = .error e) : e = .attributeError := by
  cases p <;> simp_all [getColumns]

/-- Any exception escaping the column-shaping stage (lines 247-267) is a
list-index `ValueError`, an `AttributeError` from `.columns`, or a subscript
`IndexError`. -/
theorem shapeColumns_error_mem (kw : Kwargs) (points : Points) (e : PyError)
    (h : shapeColumns kw points = .error e) :
    e = .valueError ∨ e = .attributeError ∨ e = .indexError := by
  unfold shapeColumns at h
  cases hG : kw.G with
  | some g => rw [hG] at h; simp at h
  | none =>
    rw [hG] at h
    cases h1 : pyIndex (resolveSpec kw) "x" with
    | error e1 =>
      simp only [h1] at h
      injection h with he
      exact Or.inl (he ▸ pyIndex_error_eq _ _ _ h1)
    | ok i_x =>
      simp only [h1] at h
      cases h2 : pyIndex (resolveSpec kw) "y" with
      | error e1 =>
        simp only [h2] at h
        injection h with he
        exact Or.inl (he ▸ pyIndex_error_eq _ _ _ h2)
      | ok i_y =>
        simp only [h2] at h
        cases h3 : pyIndex (resolveSpec kw) "z" with
        | error e1 =>
          simp only [h3] at h
          injection h with he
          exact Or.inl (he ▸ pyIndex_error_eq _ _ _ h3)
        | ok i_z =>
          simp only [h3] at h
          cases h4 : getColumns points with
          | error e1 =>
            simp only [h4] at h
            injection h with he
            exact Or.inr (Or.inl (he ▸ getColumns_error_eq _ _ h4))
          | ok cols =>
            simp only [h4] at h
            cases h5 : pyGet cols 0 with
            | error e1 =>
              simp only [h5] at h
              injection h with he
              exact Or.inr (Or.inr (he ▸ pyGet_error_eq _ _ _ h5))
            | ok c0 =>
              simp only [h5] at h
              cases h6 : pyGet cols 1 with
              | error e1 =>
                simp only [h6] at h
                injection h with he
                exact Or.inr (Or.inr (he ▸ pyGet_error_eq _ _ _ h6))
              | ok c1 =>
                simp only [h6] at h
                exact Except.noConfusion h

/-- With a string output path in hand, the session phase can only fail on an
unrecognized input kind, and then without any module invocation. -/
theorem sessionPhase_some_error (env : Env) (points : Points)
    (pairs : List (String × String)) (o : String) (kw : Kwargs)
    (calls : List String) (e : PyError)
    (h : sessionPhase env points pairs (some o) kw = (calls, some e)) :
    e = .invalidInputUnrecognized ∧ calls = [] := by
  unfold sessionPhase at h
  cases hG : kw.G with
  | some g => rw [hG] at h; simp at h
  | none =>
    rw [hG] at h
    cases points <;> simp_all

/-- Outside generate mode, with a matrix or file input and a string output
path, the session phase performs exactly one module call and raises nothing. -/
theorem sessionPhase_ok (env : Env) (points : Points)
    (pairs : List (String × String)) (o : String) (kw : Kwargs)
    (hG : kw.G = none)
    (hk : (∃ df, points = .matrix df) ∨ ∃ p, points = .file p) :
    (sessionPhase env points pairs (some o) kw).2 = none ∧
    (sessionPhase env points pairs (some o) kw).1.length = 1 := by
  rcases hk with ⟨df, rfl⟩ | ⟨p, rfl⟩ <;> simp [sessionPhase, hG]

/-- Outside generate mode, `project` on a matrix or file input with no
explicit outfile reaches the result-shaping stage, whose outcome decides the
returned value. -/
theorem project_none_result (env : Env) (points : Points) (center : Center)
    (kw : Kwargs) (hG : kw.G = none)
    (hk : (∃ df, points = .matrix df) ∨ ∃ p, points = .file p) :
    (project env points center none kw).result =
      match shapeColumns kw points with
      | .ok names => .ok (some ⟨names⟩)
      | .error e => .error e := by
  rcases hk with ⟨df, rfl⟩ | ⟨p, rfl⟩
  · cases hs : shapeColumns kw (.matrix df) <;> simp [project, sessionPhase, hG, hs]
  · cases hs : shapeColumns kw (.file p) <;> simp [project, sessionPhase, hG, hs]

/-- The column-shaping of a matrix input whose resolved spec holds "x", "y"
and "z": the source loop of lines 256-267 in closed form. -/
theorem shapeColumns_matrix (kw : Kwargs) (c0 c1 : String) (rest : List String)
    (hG : kw.G = none) (hx : "x" ∈ resolveSpec kw) (hy : "y" ∈ resolveSpec kw)
    (hz : "z" ∈ resolveSpec kw) :
    shapeColumns kw (.matrix ⟨c0 :: c1 :: rest⟩) =
      .ok (insertAllAt (List.indexOf "z" (resolveSpec kw)) rest
        ((substitutedSpec kw c0 c1).eraseIdx (List.indexOf "z" (resolveSpec kw)))) := by
  unfold shapeColumns
  rw [hG]
  simp [pyIndex, getColumns, pyGet, hx, hy, hz, substitutedSpec]

/-- Closed form of the whole matrix path without an explicit outfile: the
result is a frame whose columns are the substituted spec with the "z" entry
replaced in place by the extra input columns. -/
theorem project_matrix_result (env : Env) (center : Center) (kw : Kwargs)
    (c0 c1 : String) (rest : List String) (hG : kw.G = none)
    (hx : "x" ∈ resolveSpec kw) (hy : "y" ∈ resolveSpec kw)
    (hz : "z" ∈ resolveSpec kw) :
    (project env (.matrix ⟨c0 :: c1 :: rest⟩) center none kw).result =
      .ok (some ⟨(substitutedSpec kw c0 c1).take (List.indexOf "z" (resolveSpec kw)) ++
        rest ++
        (substitutedSpec kw c0 c1).drop (List.indexOf "z" (resolveSpec kw) + 1)⟩) := by
  have hzlt : List.indexOf "z" (resolveSpec kw) < (resolveSpec kw).length :=
    List.indexOf_lt_length.2 hz
  have hsublen : (substitutedSpec kw c0 c1).length = (resolveSpec kw).length := by
    simp [substitutedSpec]
  have hzlt2 : List.indexOf "z" (resolveSpec kw) < (substitutedSpec kw c0 c1).length := by
    omega
  have herase :
      ((substitutedSpec kw c0 c1).eraseIdx (List.indexOf "z" (resolveSpec kw))).length =
        (substitutedSpec kw c0 c1).length - 1 := by
    rw [List.length_eraseIdx]
    simp [hzlt2]
  rw [project_none_result env _ center kw hG (Or.inl ⟨_, rfl⟩),
    shapeColumns_matrix kw c0 c1 rest hG hx hy hz]
  rw [insertAllAt_eq _ rest _ (by omega)]
  rw [take_eraseIdx_self, drop_eraseIdx_self _ _ hzlt2]

theorem take2_decomp (l : List String) (hxy : l.take 2 = ["x", "y"]) :
    ∃ t, l = "x" :: "y" :: t := by
  rcases l with _ | ⟨a, _ | ⟨b, t⟩⟩
  · simp at hxy
  · simp at hxy
  · simp at hxy
    exact ⟨t, by rw [hxy.1, hxy.2]⟩

/-! The claims. -/

/-- C1, counterexample to the claim as stated: a two-column input
(`lon`, `lat`) with explicit flags "pxyzqrs" yields a 6-column table — not a
table with the 7 columns of the resolved flag spec — and its first two column
names are "p", "lon", not the first two input column names. -/
theorem C1_claim_counterexample :
    (project ⟨"tmpfile.csv", "vfile"⟩ (.matrix ⟨["lon", "lat"]⟩) (.seq ["10", "20"]) none
        ⟨none, some "pxyzqrs", []⟩).result =
      .ok (some ⟨["p", "lon", "lat", "q", "r", "s"]⟩) ∧
    ¬ ((["p", "lon", "lat", "q", "r", "s"] : List String).length = "pxyzqrs".length) ∧
    ¬ ((["p", "lon", "lat", "q", "r", "s"] : List String).take 2 = ["lon", "lat"]) :=
  ⟨by decide, by decide, by decide⟩

/-- C1 (amended): for an in-memory table with at least two columns and any
center, calling without generate and without outfile, when the resolved flag
spec contains "x", "y" and "z", returns a table whose column count is the
spec length minus one plus the number of input columns beyond the first two;
and when the spec starts with "x" then "y" (as the default "xyzpqrs" does),
the first two column names equal the first two input column names. -/
theorem C1_project_columns_amended (env : Env) (center : Center) (kw : Kwargs)
    (c0 c1 : String) (rest : List String) (hG : kw.G = none)
    (hx : "x" ∈ resolveSpec kw) (hy : "y" ∈ resolveSpec kw)
    (hz : "z" ∈ resolveSpec kw) :
    ∃ df : DataFrame,
      (project env (.matrix ⟨c0 :: c1 :: rest⟩) center none kw).result = .ok (some df) ∧
      df.columns.length = (resolveSpec kw).length - 1 + rest.length ∧
      ((resolveSpec kw).take 2 = ["x", "y"] → df.columns.take 2 = [c0, c1]) := by
  have hzlt : List.indexOf "z" (resolveSpec kw) < (resolveSpec kw).length :=
    List.indexOf_lt_length.2 hz
  have hsublen : (substitutedSpec kw c0 c1).length = (resolveSpec kw).length := by
    simp [substitutedSpec]
  refine ⟨_, project_matrix_result env center kw c0 c1 rest hG hx hy hz, ?_, ?_⟩
  · simp [List.length_take, List.length_drop, hsublen]
    omega
  · intro hxy
    obtain ⟨t, ht⟩ := take2_decomp _ hxy
    have hix : List.indexOf "x" (resolveSpec kw) = 0 := by
      rw [ht]; exact List.indexOf_cons_self _ _
    have hiy : List.indexOf "y" (resolveSpec kw) = 1 := by
      rw [ht, List.indexOf_cons_ne _ (by decide), List.indexOf_cons_self]
    have hiz : List.indexOf "z" (resolveSpec kw) =
        List.indexOf "z" t + 2 := by
      rw [ht, List.indexOf_cons_ne _ (by decide), List.indexOf_cons_ne _ (by decide)]
    have hsub : substitutedSpec kw c0 c1 = c0 :: c1 :: t := by
      rw [substitutedSpec, hix, hiy, ht]
      simp [List.set]
    rw [hsub, hiz]
    simp [List.take_succ_cons]

/-- C3: for an input with more than two columns, the "z" placeholder of the
resolved spec is expanded in place into exactly the input columns beyond the
first two, in their original order, with the entries after "z" shifted: the
result columns are the substituted spec up to the "z" position, then the extra
input columns, then the substituted spec after the "z" position. -/
theorem C3_z_expansion (env : Env) (center : Center) (kw : Kwargs)
    (c0 c1 : String) (rest : List String) (hn : 0 < rest.length)
    (hG : kw.G = none) (hx : "x" ∈ resolveSpec kw) (hy : "y" ∈ resolveSpec kw)
    (hz : "z" ∈ resolveSpec kw) :
    (project env (.matrix ⟨c0 :: c1 :: rest⟩) center none kw).result =
      .ok (some ⟨(substitutedSpec kw c0 c1).take (List.indexOf "z" (resolveSpec kw)) ++
        rest ++
        (substitutedSpec kw c0 c1).drop (List.indexOf "z" (resolveSpec kw) + 1)⟩) ∧
    rest.length = (c0 :: c1 :: rest).length - 2 :=
  ⟨project_matrix_result env center kw c0 c1 rest hG hx hy hz, by simp⟩

theorem C1_project_columns_amended_witness :
    ∃ df : DataFrame,
      (project ⟨"t", "v"⟩ (.matrix ⟨["lon", "lat", "depth"]⟩) (.seq ["10", "20"]) none
          ⟨none, none, []⟩).result = .ok (some df) ∧
      df.columns.length = (resolveSpec ⟨none, none, []⟩).length - 1 +
        (["depth"] : List String).length ∧
      ((resolveSpec ⟨none, none, []⟩).take 2 = ["x", "y"] →
        df.columns.take 2 = ["lon", "lat"]) :=
  C1_project_columns_amended ⟨"t", "v"⟩ (.seq ["10", "20"]) ⟨none, none, []⟩
    "lon" "lat" ["depth"] rfl (by decide) (by decide) (by decide)

theorem C3_z_expansion_witness :
    (project ⟨"t", "v"⟩ (.matrix ⟨["lon", "lat", "depth", "mag"]⟩) (.seq ["10", "20"]) none
        ⟨none, none, []⟩).result =
      .ok (some ⟨(substitutedSpec ⟨none, none, []⟩ "lon" "lat").take
          (List.indexOf "z" (resolveSpec ⟨none, none, []⟩)) ++
        ["depth", "mag"] ++
        (substitutedSpec ⟨none, none, []⟩ "lon" "lat").drop
          (List.indexOf "z" (resolveSpec ⟨none, none, []⟩) + 1)⟩) ∧
    (["depth", "mag"] : List String).length =
      ("lon" :: "lat" :: ["depth", "mag"] : List String).length - 2 :=
  C3_z_expansion ⟨"t", "v"⟩ (.seq ["10", "20"]) ⟨none, none, []⟩ "lon" "lat"
    ["depth", "mag"] (by decide) rfl (by decide) (by decide) (by decide)

/-- C2 (evidence for the code bug): with a file-path input and no outfile, the
call does NOT fail with the invalid-input condition before the external
invocation; instead the module is invoked once (on the file, output redirected
to the temporary file) and the call then fails with an AttributeError while
shaping the result columns from a string input. -/
theorem C2_file_no_outfile_behavior :
    (project ⟨"tmpfile.csv", "vfile"⟩ (.file "points.csv") (.seq ["10", "20"]) none
        ⟨none, none, []⟩).calls = ["points.csv -C10/20 ->tmpfile.csv"] ∧
    (project ⟨"tmpfile.csv", "vfile"⟩ (.file "points.csv") (.seq ["10", "20"]) none
        ⟨none, none, []⟩).result = .error .attributeError :=
  ⟨by decide, by decide⟩

/-- C4: with generate set and no explicit outfile, the points argument is
never consulted — any two inputs give the very same outcome — and the
returned table has exactly the three columns "r", "s", "p". -/
theorem C4_generate_ignores_points (env : Env) (center : Center) (kw : Kwargs)
    (g : String) (hG : kw.G = some g) (points1 points2 : Points) :
    project env points1 center none kw = project env points2 center none kw ∧
    (project env points1 center none kw).result = .ok (some ⟨["r", "s", "p"]⟩) := by
  constructor <;> simp [project, sessionPhase, shapeColumns, hG]

theorem C4_generate_ignores_points_witness :
    project ⟨"t", "v"⟩ .other (.seq ["10", "20"]) none ⟨some "5", none, []⟩ =
      project ⟨"t", "v"⟩ (.matrix ⟨["lon"]⟩) (.seq ["10", "20"]) none ⟨some "5", none, []⟩ ∧
    (project ⟨"t", "v"⟩ .other (.seq ["10", "20"]) none ⟨some "5", none, []⟩).result =
      .ok (some ⟨["r", "s", "p"]⟩) :=
  C4_generate_ignores_points ⟨"t", "v"⟩ (.seq ["10", "20"]) ⟨some "5", none, []⟩ "5" rfl
    .other (.matrix ⟨["lon"]⟩)

/-- C5: with an explicit outfile (distinct from the internal temporary name)
and an input the session stage accepts, project returns no in-memory result
while the external module is still invoked. -/
theorem C5_outfile_returns_none (env : Env) (points : Points) (center : Center)
    (kw : Kwargs) (f : String) (hne : f ≠ env.tmpname)
    (hk : (∃ g, kw.G = some g) ∨ (∃ df, points = .matrix df) ∨ ∃ p, points = .file p) :
    (project env points center (some f) kw).result = .ok none ∧
    (project env points center (some f) kw).calls ≠ [] := by
  rcases hk with ⟨g, hg⟩ | ⟨df, rfl⟩ | ⟨p, rfl⟩
  · simp [project, sessionPhase, hg, hne]
  · cases hg : kw.G <;> simp [project, sessionPhase, hg, hne]
  · cases hg : kw.G <;> simp [project, sessionPhase, hg, hne]

theorem C5_outfile_returns_none_witness :
    (project ⟨"t", "v"⟩ (.matrix ⟨["lon", "lat"]⟩) (.seq ["10", "20"]) (some "out.csv")
        ⟨none, none, []⟩).result = .ok none ∧
    (project ⟨"t", "v"⟩ (.matrix ⟨["lon", "lat"]⟩) (.seq ["10", "20"]) (some "out.csv")
        ⟨none, none, []⟩).calls ≠ [] :=
  C5_outfile_returns_none ⟨"t", "v"⟩ (.matrix ⟨["lon", "lat"]⟩) (.seq ["10", "20"])
    ⟨none, none, []⟩ "out.csv" (by decide) (Or.inr (Or.inl ⟨_, rfl⟩))

theorem shapeColumns_missing (kw : Kwargs) (points : Points) (hG : kw.G = none)
    (hmiss : ¬("x" ∈ resolveSpec kw ∧ "y" ∈ resolveSpec kw ∧ "z" ∈ resolveSpec kw)) :
    shapeColumns kw points = .error .valueError := by
  unfold shapeColumns
  rw [hG]
  by_cases hx : "x" ∈ resolveSpec kw
  · by_cases hy : "y" ∈ resolveSpec kw
    · by_cases hz : "z" ∈ resolveSpec kw
      · exact absurd ⟨hx, hy, hz⟩ hmiss
      · simp [pyIndex, hx, hy, hz]
    · simp [pyIndex, hx, hy]
  · simp [pyIndex, hx]

/-- C6: without generate and outfile, when the resolved flag spec (here a
user-supplied flags string) lacks one of the letters "x", "y", "z", the call
fails during column substitution with the list-index failure. -/
theorem C6_missing_placeholder (env : Env) (points : Points) (center : Center)
    (kw : Kwargs) (fl : String) (hG : kw.G = none) (hF : kw.F = some fl)
    (hmiss : ¬("x" ∈ resolveSpec kw ∧ "y" ∈ resolveSpec kw ∧ "z" ∈ resolveSpec kw))
    (hk : (∃ df, points = .matrix df) ∨ ∃ p, points = .file p) :
    (project env points center none kw).result = .error .valueError := by
  rw [project_none_result env points center kw hG hk,
    shapeColumns_missing kw points hG hmiss]

theorem C6_missing_placeholder_witness :
    (project ⟨"t", "v"⟩ (.matrix ⟨["lon", "lat"]⟩) (.seq ["10", "20"]) none
        ⟨none, some "pqrs", []⟩).result = .error .valueError :=
  C6_missing_placeholder ⟨"t", "v"⟩ (.matrix ⟨["lon", "lat"]⟩) (.seq ["10", "20"])
    ⟨none, some "pqrs", []⟩ "pqrs" rfl rfl (by decide) (Or.inl ⟨_, rfl⟩)

/-- C7: the serialized center is always among the flag tokens of the built
argument string, as the dedicated token "-C" followed by the elements of
center joined by "/", whatever the other options are; it is stored directly
under key "C" (line 218) instead of passing through the sequence-converting
decorator. -/
theorem C7_center_token (center : Center) (kw : Kwargs) :
    ("C", serializeCenter center) ∈ Kwargs.toPairs (serializeCenter center) kw ∧
    ("-" ++ "C" ++ serializeCenter center) ∈
      (Kwargs.toPairs (serializeCenter center) kw).map argToken := by
  constructor
  · simp [Kwargs.toPairs]
  · simp [Kwargs.toPairs, argToken]

/-- C8: without generate, an input that is neither a matrix nor a file path
raises the invalid-input error before any module invocation: the call trace
stays empty and no partial result is produced. -/
theorem C8_unrecognized_input (env : Env) (center : Center) (outfile : Option String)
    (kw : Kwargs) (hG : kw.G = none) :
    (project env .other center outfile kw).calls = [] ∧
    (project env .other center outfile kw).result = .error .invalidInputUnrecognized := by
  cases outfile <;> simp [project, sessionPhase, hG]

theorem C8_unrecognized_input_witness :
    (project ⟨"t", "v"⟩ .other (.seq ["10", "20"]) (some "o.csv") ⟨none, none, []⟩).calls
      = [] ∧
    (project ⟨"t", "v"⟩ .other (.seq ["10", "20"]) (some "o.csv") ⟨none, none, []⟩).result
      = .error .invalidInputUnrecognized :=
  C8_unrecognized_input ⟨"t", "v"⟩ (.seq ["10", "20"]) (some "o.csv") ⟨none, none, []⟩ rfl

/-- Every error escaping `project` is the unrecognized-input error or one of
the column-shaping failures. -/
theorem project_error_mem (env : Env) (points : Points) (center : Center)
    (outfile : Option String) (kw : Kwargs) (e : PyError)
    (h : (project env points center outfile kw).result = .error e) :
    e = .invalidInputUnrecognized ∨ e = .valueError ∨ e = .attributeError ∨
      e = .indexError := by
  unfold project at h
  cases outfile with
  | none =>
    simp only [] at h
    cases hs : sessionPhase env points (Kwargs.toPairs (serializeCenter center) kw)
        (some env.tmpname) kw with
    | mk calls oe =>
      rw [hs] at h
      cases oe with
      | some e1 =>
        simp at h
        exact Or.inl (h ▸ (sessionPhase_some_error _ _ _ _ _ _ _ hs).1)
      | none =>
        simp only [if_pos rfl] at h
        cases hsc : shapeColumns kw points with
        | ok names => rw [hsc] at h; simp at h
        | error e1 =>
          rw [hsc] at h
          simp at h
          exact Or.inr (h ▸ shapeColumns_error_mem _ _ _ hsc)
  | some f =>
    simp only [] at h
    cases hs : sessionPhase env points (Kwargs.toPairs (serializeCenter center) kw)
        (some f) kw with
    | mk calls oe =>
      rw [hs] at h
      cases oe with
      | some e1 =>
        simp at h
        exact Or.inl (h ▸ (sessionPhase_some_error _ _ _ _ _ _ _ hs).1)
      | none =>
        by_cases hf : f = env.tmpname
        · subst hf
          simp only [if_pos rfl] at h
          cases hsc : shapeColumns kw points with
          | ok names => rw [hsc] at h; simp at h
          | error e1 =>
            rw [hsc] at h
            simp at h
            exact Or.inr (h ▸ shapeColumns_error_mem _ _ _ hsc)
        · simp [hf] at h

/-- C9: the guard of source line 229 is unreachable: because lines 221-222
rebind outfile to the temporary file name whenever it is None, project can
never raise the invalid-input error of line 230, whatever its arguments. -/
theorem C9_outfile_guard_unreachable (env : Env) (points : Points) (center : Center)
    (outfile : Option String) (kw : Kwargs) :
    (project env points center outfile kw).result ≠ .error .invalidInputOutfile := by
  intro h
  have := project_error_mem env points center outfile kw _ h
  simp at this

/-- C10: a string center is iterated character by character, so the center
"10/20" given as a string serializes to "1/0///2/0", while a two-element
sequence yields the intended slash-joined "cx/cy" token. -/
theorem C10_string_center_serialization :
    serializeCenter (.str "10/20") = "1/0///2/0" ∧
    serializeCenter (.seq ["10", "20"]) = "10/20" :=
  ⟨by decide, by decide⟩

end PyGMT
